import Mathlib

/-!
Verification of the `Acervo` library-loan engine (`models.py`, `core.py`).

The Python code is shallowly embedded as follows.

* Python `dict` (insertion ordered, unique keys) is `List (α × β)` together
  with the helpers `dictLookup`, `dictSet` (overwrite-in-place or append),
  `dictPop` (`dict.pop` with no default: `none` models the raised `KeyError`).
* Python object references: entities live in identity-indexed heaps
  (`Nat → Obra`, …) carried by the state, so that in-place mutation of an
  `Obra` shared by the stock bookkeeping and a `Emprestimo` is visible to
  both holders, exactly as in CPython.
* `date` is an integer day ordinal; subtraction of dates gives the day
  difference, adding a `Timedelta` adds its `days`.  `date.today()` is the
  constant `today` of the state: the source freezes `date.today()` in
  module-load-time default arguments and never lets a run span midnight.
* A raising method returns its (possibly partially mutated) state together
  with `Option PyErr`; a Python exception propagates after the mutations
  already performed, which the pair preserves.
-/

/-- Python runtime errors raised by the embedded code. -/
inductive PyErr where
  | valueError
  | keyError
  | typeError
deriving DecidableEq, Repr

/-- `datetime.timedelta`, reduced to its day count (the only part used). -/
structure Timedelta where
  days : Int
deriving DecidableEq, Repr

/-- Lookup in a Python dict modelled as an association list
(first binding wins; reachable dicts have unique keys). -/
def dictLookup {α β : Type} [DecidableEq α] : List (α × β) → α → Option β
  | [], _ => none
  | (k, v) :: rest, key => if k = key then some v else dictLookup rest key

/-- `d[key] = v` on a Python dict: overwrite the existing binding in place,
else append the new binding (insertion order). -/
def dictSet {α β : Type} [DecidableEq α] : List (α × β) → α → β → List (α × β)
  | [], key, v => [(key, v)]
  | (k, w) :: rest, key, v =>
      if k = key then (k, v) :: rest else (k, w) :: dictSet rest key v

/-- `d.pop(key)` with no default: `some` of the dict without the binding,
`none` when the key is absent (Python raises `KeyError`). -/
def dictPop {α β : Type} [DecidableEq α] : List (α × β) → α → Option (List (α × β))
  | [], _ => none
  | (k, v) :: rest, key =>
      if k = key then some rest else (dictPop rest key).map (fun r => (k, v) :: r)

/-- `key in d` on a Python dict. -/
def dictMem {α β : Type} [DecidableEq α] (d : List (α × β)) (key : α) : Bool :=
  (dictLookup d key).isSome

/-- `l.remove(a)` on a Python list: drop the first occurrence, `none` when
absent (Python raises `ValueError`). -/
def listRemove {α : Type} [DecidableEq α] : List α → α → Option (List α)
  | [], _ => none
  | x :: rest, a =>
      if x = a then some rest else (listRemove rest a).map (fun r => x :: r)

/-- Point update of an identity-indexed heap. -/
def heapSet {α : Type} (h : Nat → α) (i : Nat) (v : α) : Nat → α :=
  fun j => if j = i then v else h j

/-- `models.Obra`: a catalog entry (identity and creation date omitted;
identity is carried by the heap index). -/
structure Obra where
  titulo : String
  autor : String
  ano : Int
  categoria : String
  quantidade : Int
deriving DecidableEq, Repr

/-- `models.Usuario`: loans held as heap indices, debts as a Python dict
from reason string to the formatted amount string. -/
structure Usuario where
  nome : String
  email : String
  emprestimos : List Nat
  debitos : List (String × String)
deriving DecidableEq, Repr

/-- `models.Emprestimo`: references its `Obra` and `Usuario` by heap index. -/
structure Emprestimo where
  obraId : Nat
  usuarioId : Nat
  dataPrevDevol : Int
  dataRetirada : Int
  dataDevReal : Option Int
deriving DecidableEq, Repr

/-- The `core.Acervo` instance (`estoque`, `emprestimos_ativos`) together
with the object heaps that model Python reference semantics, the class-level
`Emprestimo.historico` registry, and the frozen `date.today()`. -/
structure Acervo where
  estoque : List (String × Int)
  emprestimosAtivos : List Nat
  obras : Nat → Obra
  usuarios : Nat → Usuario
  emprestimos : Nat → Emprestimo
  nextEmpId : Nat
  empHistorico : List Nat
  today : Int

/-- `Emprestimo.dias_atraso`: `abs((data_prev_devol - data_ref).days)`.
Unsigned: a loan not yet due also reports a positive count. -/
def diasAtraso (emp : Emprestimo) (dataRef : Int) : Nat :=
  (emp.dataPrevDevol - dataRef).natAbs

/-- `Obra.disponivel`: key-presence test on the stock dict. -/
def disponivel (estoque : List (String × Int)) (o : Obra) : Bool :=
  dictMem estoque o.titulo

/-- `Obra.__str__`: `f'"{titulo}", {autor}'`. -/
def obraStr (o : Obra) : String :=
  "\"" ++ o.titulo ++ "\", " ++ o.autor

/-- `date.strftime('%d/%m/%y')`, modelled by the decimal rendering of the
day ordinal (both are injective renderings of the day). -/
def dateStr (d : Int) : String :=
  toString d

/-- `Acervo.valor_multa`: `float(emprestimo.dias_atraso())`, one currency
unit per day; the value is the nonnegative integer the float renders from. -/
def valorMulta (emp : Emprestimo) (today : Int) : Nat :=
  diasAtraso emp today

/-- The debt key of `Acervo.multar_se_atrasado`:
`f'Multa de atraso na devolução de {obra}, ocorreu em {today}.'`. -/
def multaKey (o : Obra) (today : Int) : String :=
  "Multa de atraso na devolução de " ++ obraStr o ++ ", ocorreu em " ++
    dateStr today ++ "."

/-- The debt value of `Acervo.multar_se_atrasado`:
`f'R$ {float(n)}'.replace('.', ',')`, i.e. `R$ n,0` for an integer-valued
nonnegative float. -/
def multaVal (n : Nat) : String :=
  "R$ " ++ toString n ++ ",0"

/-- `Acervo.multar_se_atrasado`: when `dias_atraso()` is nonzero (truthy),
write the fine into the loan's borrower's `debitos` dict. -/
def multarSeAtrasado (st : Acervo) (eid : Nat) : Acervo :=
  let emp := st.emprestimos eid
  let dias := diasAtraso emp st.today
  if dias ≠ 0 then
    let o := st.obras emp.obraId
    let u := st.usuarios emp.usuarioId
    { st with
      usuarios := heapSet st.usuarios emp.usuarioId
        { u with debitos := dictSet u.debitos (multaKey o st.today) (multaVal dias) } }
  else
    st

/-- `Acervo.__iadd__`: `if obra.titulo in estoque: obra.quantidade += 1`,
then `estoque[obra.titulo] = obra.quantidade` in either case.  Note that in
the absent branch the quantity is not incremented. -/
def iadd (st : Acervo) (oid : Nat) : Acervo :=
  let o := st.obras oid
  if dictMem st.estoque o.titulo then
    let q := o.quantidade + 1
    { st with
      obras := heapSet st.obras oid { o with quantidade := q },
      estoque := dictSet st.estoque o.titulo q }
  else
    { st with estoque := dictSet st.estoque o.titulo o.quantidade }

/-- `Acervo.__isub__`: in the present branch decrement and write back; then
unconditionally `estoque.pop(obra.titulo)` whenever `obra.quantidade <= 0`,
which raises `KeyError` when the title is absent from the dict. -/
def isub (st : Acervo) (oid : Nat) : Acervo × Option PyErr :=
  let o := st.obras oid
  let step :=
    if dictMem st.estoque o.titulo then
      let o1 := { o with quantidade := o.quantidade - 1 }
      ({ st with
         obras := heapSet st.obras oid o1,
         estoque := dictSet st.estoque o.titulo o1.quantidade }, o1)
    else
      (st, o)
  let st1 := step.1
  let o1 := step.2
  if o1.quantidade ≤ 0 then
    match dictPop st1.estoque o1.titulo with
    | some d => ({ st1 with estoque := d }, none)
    | none => (st1, some PyErr.keyError)
  else
    (st1, none)

/-- `Acervo.adicionar`: the explicit interface to `+=`. -/
def adicionar (st : Acervo) (oid : Nat) : Acervo :=
  iadd st oid

/-- `Acervo.remover`: the explicit interface to `-=`. -/
def remover (st : Acervo) (oid : Nat) : Acervo × Option PyErr :=
  isub st oid

/-- `Acervo.emprestar`: if the title is a key of `estoque`, build the
`Emprestimo` (which registers itself in the class-level `historico`),
decrement stock, append to `emprestimos_ativos` and to the borrower's
`emprestimos`; otherwise `raise ValueError` with no state change. -/
def emprestar (st : Acervo) (oid uid : Nat) (dias : Int) :
    Acervo × Except PyErr Nat :=
  let o := st.obras oid
  if disponivel st.estoque o then
    let eid := st.nextEmpId
    let emp : Emprestimo :=
      { obraId := oid, usuarioId := uid,
        dataPrevDevol := st.today + dias,
        dataRetirada := st.today, dataDevReal := none }
    let st1 := { st with
      emprestimos := heapSet st.emprestimos eid emp,
      nextEmpId := eid + 1,
      empHistorico := st.empHistorico ++ [eid] }
    let res := isub st1 oid
    match res.2 with
    | some e => (res.1, Except.error e)
    | none =>
        let st2 := res.1
        let st3 := { st2 with emprestimosAtivos := st2.emprestimosAtivos ++ [eid] }
        let u := st3.usuarios uid
        let st4 := { st3 with
          usuarios := heapSet st3.usuarios uid
            { u with emprestimos := u.emprestimos ++ [eid] } }
        (st4, Except.ok eid)
  else
    (st, Except.error PyErr.valueError)

/-- `Emprestimo.marcar_devolucao`: record the actual return date. -/
def marcarDevolucao (st : Acervo) (eid : Nat) (dataDevReal : Int) : Acervo :=
  let emp := st.emprestimos eid
  { st with
    emprestimos := heapSet st.emprestimos eid { emp with dataDevReal := some dataDevReal } }

/-- `Acervo.devolver`: fine check (relative to the frozen today), then
`adicionar(emprestimo.obra)`, then `marcar_devolucao(data_dev)`, then
`emprestimos_ativos.remove(emprestimo)` — which raises `ValueError`, after
the three mutations, when the loan is no longer in the list. -/
def devolver (st : Acervo) (eid : Nat) (dataDev : Int) : Acervo × Option PyErr :=
  let st1 := multarSeAtrasado st eid
  let st2 := adicionar st1 (st1.emprestimos eid).obraId
  let st3 := marcarDevolucao st2 eid dataDev
  match listRemove st3.emprestimosAtivos eid with
  | some l => ({ st3 with emprestimosAtivos := l }, none)
  | none => (st3, some PyErr.valueError)

/-- The guard of `Acervo.renovar` compares `emprestimo.dias_atraso()` — an
`int` — with `dias_extras` — a `datetime.timedelta`.  CPython defines no
order between `int` and `timedelta`, so the comparison itself raises
`TypeError`. -/
def pyCompareIntTimedelta (_ : Int) (_ : Timedelta) : Except PyErr Bool :=
  Except.error PyErr.typeError

/-- `Acervo.renovar`: the guard `dias_atraso() > dias_extras`, then (had the
guard evaluated) the fine check and `data_prev_devol += dias_extras`.  The
guard raises `TypeError` before anything is mutated. -/
def renovar (st : Acervo) (eid : Nat) (diasExtras : Timedelta) :
    Acervo × Option PyErr :=
  let emp := st.emprestimos eid
  match pyCompareIntTimedelta (diasAtraso emp st.today : Int) diasExtras with
  | Except.error e => (st, some e)
  | Except.ok true => (st, none)
  | Except.ok false =>
      let st1 := multarSeAtrasado st eid
      let emp1 := st1.emprestimos eid
      ({ st1 with
         emprestimos := heapSet st1.emprestimos eid
           { emp1 with dataPrevDevol := emp1.dataPrevDevol + diasExtras.days } }, none)

section DictLemmas

variable {α β : Type} [DecidableEq α]

theorem dictLookup_dictSet_self (d : List (α × β)) (k : α) (v : β) :
    dictLookup (dictSet d k v) k = some v := by
  induction d with
  | nil => simp [dictSet, dictLookup]
  | cons p rest ih =>
      obtain ⟨a, b⟩ := p
      by_cases h : a = k
      · simp [dictSet, dictLookup, h]
      · simp [dictSet, dictLookup, h, ih]

theorem dictLookup_dictSet_ne (d : List (α × β)) (k k' : α) (v : β) (h : k' ≠ k) :
    dictLookup (dictSet d k v) k' = dictLookup d k' := by
  induction d with
  | nil => simp [dictSet, dictLookup, Ne.symm h]
  | cons p rest ih =>
      obtain ⟨a, b⟩ := p
      by_cases hak : a = k
      · subst hak
        simp [dictSet, dictLookup, Ne.symm h]
      · simp [dictSet, dictLookup, hak, ih]

theorem dictLookup_eq_none_iff (d : List (α × β)) (k : α) :
    dictLookup d k = none ↔ k ∉ d.map Prod.fst := by
  induction d with
  | nil => simp [dictLookup]
  | cons p rest ih =>
      obtain ⟨a, b⟩ := p
      by_cases h : a = k
      · subst h; simp [dictLookup]
      · simp [dictLookup, h, ih, Ne.symm h]

theorem mem_map_fst_dictSet (d : List (α × β)) (k x : α) (v : β) :
    x ∈ (dictSet d k v).map Prod.fst ↔ x ∈ d.map Prod.fst ∨ x = k := by
  induction d with
  | nil => simp [dictSet]
  | cons p rest ih =>
      obtain ⟨a, b⟩ := p
      by_cases h : a = k
      · subst h
        simp [dictSet]
        tauto
      · simp [dictSet, h, ih]
        tauto

theorem nodup_map_fst_dictSet (d : List (α × β)) (k : α) (v : β)
    (hnd : (d.map Prod.fst).Nodup) :
    ((dictSet d k v).map Prod.fst).Nodup := by
  induction d with
  | nil => simp [dictSet]
  | cons p rest ih =>
      obtain ⟨a, b⟩ := p
      simp only [List.map_cons, List.nodup_cons] at hnd
      by_cases h : a = k
      · subst h
        have hs : dictSet ((a, b) :: rest) a v = (a, v) :: rest := by
          simp [dictSet]
        rw [hs]
        simp only [List.map_cons, List.nodup_cons]
        exact ⟨hnd.1, hnd.2⟩
      · simp only [dictSet, if_neg h, List.map_cons, List.nodup_cons]
        refine ⟨?_, ih hnd.2⟩
        rw [mem_map_fst_dictSet]
        rintro (hmem | rfl)
        · exact hnd.1 hmem
        · exact h rfl

theorem dictPop_eq_none_iff (d : List (α × β)) (k : α) :
    dictPop d k = none ↔ dictLookup d k = none := by
  induction d with
  | nil => simp [dictPop, dictLookup]
  | cons p rest ih =>
      obtain ⟨a, b⟩ := p
      by_cases h : a = k
      · simp [dictPop, dictLookup, h]
      · simp [dictPop, dictLookup, h, ih]

theorem dictLookup_dictPop_self (d : List (α × β)) (k : α) (d' : List (α × β))
    (hnd : (d.map Prod.fst).Nodup) (h : dictPop d k = some d') :
    dictLookup d' k = none := by
  induction d generalizing d' with
  | nil => simp [dictPop] at h
  | cons p rest ih =>
      obtain ⟨a, b⟩ := p
      simp only [List.map_cons, List.nodup_cons] at hnd
      by_cases hak : a = k
      · subst hak
        simp [dictPop] at h
        subst h
        exact (dictLookup_eq_none_iff _ _).mpr hnd.1
      · simp only [dictPop, if_neg hak, Option.map_eq_some'] at h
        obtain ⟨r, hr, hd'⟩ := h
        subst hd'
        simp only [dictLookup, if_neg hak]
        exact ih r hnd.2 hr

end DictLemmas

section ListRemoveLemmas

variable {α : Type} [DecidableEq α]

theorem listRemove_eq_none_iff (l : List α) (a : α) :
    listRemove l a = none ↔ a ∉ l := by
  induction l with
  | nil => simp [listRemove]
  | cons x rest ih =>
      by_cases h : x = a
      · subst h; simp [listRemove]
      · simp [listRemove, h, ih, Ne.symm h]

theorem listRemove_exists_of_mem (l : List α) (a : α) (h : a ∈ l) :
    ∃ l', listRemove l a = some l' := by
  cases e : listRemove l a with
  | none => exact absurd h ((listRemove_eq_none_iff l a).mp e)
  | some l' => exact ⟨l', rfl⟩

theorem not_mem_listRemove (l : List α) (a : α) (l' : List α)
    (hnd : l.Nodup) (h : listRemove l a = some l') : a ∉ l' := by
  induction l generalizing l' with
  | nil => simp [listRemove] at h
  | cons x rest ih =>
      rw [List.nodup_cons] at hnd
      by_cases hxa : x = a
      · subst hxa
        simp [listRemove] at h
        subst h
        exact hnd.1
      · simp only [listRemove, if_neg hxa, Option.map_eq_some'] at h
        obtain ⟨r, hr, hl'⟩ := h
        subst hl'
        simp only [List.mem_cons, not_or]
        exact ⟨fun heq => hxa heq.symm, ih r hnd.2 hr⟩

end ListRemoveLemmas

theorem heapSet_self {α : Type} (h : Nat → α) (i : Nat) (v : α) :
    heapSet h i v i = v := by
  simp [heapSet]

theorem heapSet_ne {α : Type} (h : Nat → α) (i j : Nat) (v : α) (hij : j ≠ i) :
    heapSet h i v j = h j := by
  simp [heapSet, hij]

theorem dictSet_idem {α β : Type} [DecidableEq α] (d : List (α × β)) (k : α) (v : β) :
    dictSet (dictSet d k v) k v = dictSet d k v := by
  induction d with
  | nil => simp [dictSet]
  | cons p rest ih =>
      obtain ⟨a, b⟩ := p
      by_cases h : a = k
      · simp [dictSet, h]
      · simp [dictSet, h, ih]

theorem heapSet_heapSet {α : Type} (h : Nat → α) (i : Nat) (v w : α) :
    heapSet (heapSet h i v) i w = heapSet h i w := by
  funext j
  by_cases hj : j = i <;> simp [heapSet, hj]

theorem multarSeAtrasado_estoque (st : Acervo) (eid : Nat) :
    (multarSeAtrasado st eid).estoque = st.estoque := by
  simp only [multarSeAtrasado]
  split <;> rfl

theorem multarSeAtrasado_emprestimosAtivos (st : Acervo) (eid : Nat) :
    (multarSeAtrasado st eid).emprestimosAtivos = st.emprestimosAtivos := by
  simp only [multarSeAtrasado]
  split <;> rfl

theorem multarSeAtrasado_emprestimos (st : Acervo) (eid : Nat) :
    (multarSeAtrasado st eid).emprestimos = st.emprestimos := by
  simp only [multarSeAtrasado]
  split <;> rfl

theorem multarSeAtrasado_obras (st : Acervo) (eid : Nat) :
    (multarSeAtrasado st eid).obras = st.obras := by
  simp only [multarSeAtrasado]
  split <;> rfl

theorem multarSeAtrasado_today (st : Acervo) (eid : Nat) :
    (multarSeAtrasado st eid).today = st.today := by
  simp only [multarSeAtrasado]
  split <;> rfl

theorem adicionar_emprestimos (st : Acervo) (oid : Nat) :
    (adicionar st oid).emprestimos = st.emprestimos := by
  simp only [adicionar, iadd]
  split <;> rfl

theorem adicionar_emprestimosAtivos (st : Acervo) (oid : Nat) :
    (adicionar st oid).emprestimosAtivos = st.emprestimosAtivos := by
  simp only [adicionar, iadd]
  split <;> rfl

theorem adicionar_usuarios (st : Acervo) (oid : Nat) :
    (adicionar st oid).usuarios = st.usuarios := by
  simp only [adicionar, iadd]
  split <;> rfl

theorem marcarDevolucao_estoque (st : Acervo) (eid : Nat) (d : Int) :
    (marcarDevolucao st eid d).estoque = st.estoque := rfl

theorem marcarDevolucao_emprestimosAtivos (st : Acervo) (eid : Nat) (d : Int) :
    (marcarDevolucao st eid d).emprestimosAtivos = st.emprestimosAtivos := rfl

theorem marcarDevolucao_usuarios (st : Acervo) (eid : Nat) (d : Int) :
    (marcarDevolucao st eid d).usuarios = st.usuarios := rfl

/-! ### Concrete states

The scenario of spec section 8: one catalog title with a single copy, one
borrower, one loan.  `w0` is the freshly built collection, `w1` after
`adicionar`, `w2` after `emprestar`, `w3` after `devolver` on the same day. -/

/-- A single-copy catalog entry, as built by `Obra(titulo, autor, ano, cat)`. -/
def obraLivro : Obra :=
  { titulo := "Book", autor := "A", ano := 2000, categoria := "F", quantidade := 1 }

/-- A fresh borrower. -/
def usuarioB : Usuario :=
  { nome := "B", email := "b@x", emprestimos := [], debitos := [] }

/-- Heap filler for loan slots not yet allocated (never dereferenced before
allocation by the theorems below). -/
def empVazio : Emprestimo :=
  { obraId := 0, usuarioId := 0, dataPrevDevol := 0, dataRetirada := 0, dataDevReal := none }

/-- Fresh `Acervo()` holding `obraLivro` at heap index 0 and `usuarioB` at
heap index 0, on day 0. -/
def w0 : Acervo :=
  { estoque := [], emprestimosAtivos := [], obras := fun _ => obraLivro,
    usuarios := fun _ => usuarioB, emprestimos := fun _ => empVazio,
    nextEmpId := 0, empHistorico := [], today := 0 }

/-- After `acervo.adicionar(obra)`: stock is `{"Book": 1}`. -/
def w1 : Acervo := adicionar w0 0

/-- After `acervo.emprestar(obra, usuario)` (7 days): loan 0 is open. -/
def w2 : Acervo := (emprestar w1 0 0 7).1

/-- After `acervo.devolver(emp, day 0)`. -/
def w3 : Acervo := (devolver w2 0 0).1

/-- A three-copy catalog entry with its title absent from the stock dict. -/
def obraTres : Obra :=
  { titulo := "T", autor := "A", ano := 1, categoria := "C", quantidade := 3 }

/-- Fresh collection holding `obraTres`. -/
def wTres : Acervo := { w0 with obras := fun _ => obraTres }

/-- Collection whose stock dict is empty while the item object records
`quantidade = 0` (exactly the situation after a checkout exhausted the
title, or a fresh `Obra(..., quantidade=0)`). -/
def wAbs : Acervo := { w0 with obras := fun _ => { obraLivro with quantidade := 0 } }

/-- Two copies both in the stock dict and on the item object. -/
def wDois : Acervo :=
  { w0 with estoque := [("Book", 2)], obras := fun _ => { obraLivro with quantidade := 2 } }

/-- Day 10, with loan 0 due on day 7: three days overdue. -/
def wLate : Acervo :=
  { w0 with today := 10, emprestimos := fun _ => { empVazio with dataPrevDevol := 7 } }

/-! ### Claim theorems -/

/-- C1: the claimed invariant — `estoque` never holds a key with quantity
≤ 0, and a return re-adds a title above 0 — fails on the code.  Starting
from an empty collection, `adicionar` of a single-copy title, a successful
`emprestar` and a successful `devolver` leave `estoque = {"Book": 0}`:
`__iadd__` re-creates the absent key at the item's (not incremented)
`quantidade`, which the checkout had driven to 0. -/
theorem c1_zero_key_reachable :
    (emprestar w1 0 0 7).2 = Except.ok 0 ∧
    (devolver w2 0 0).2 = none ∧
    w3.estoque = [("Book", 0)] :=
  ⟨rfl, rfl, rfl⟩

/-- C2: stock conservation for a checkout/return pair fails on the code.
The title "Book" starts with recorded quantity 1; after one successful
checkout and one successful return its recorded quantity is 0, not 1. -/
theorem c2_roundtrip_not_conserved :
    dictLookup w1.estoque "Book" = some 1 ∧
    (emprestar w1 0 0 7).2 = Except.ok 0 ∧
    (devolver w2 0 0).2 = none ∧
    dictLookup w3.estoque "Book" = some 0 :=
  ⟨rfl, rfl, rfl, rfl⟩

/-- C3: the claimed silent refusal of `renovar` fails on the code: the very
guard `emprestimo.dias_atraso() > dias_extras` compares an `int` with a
`timedelta`, which raises `TypeError` on every call, before any state
change — no renewal, refused or granted, ever happens without an error. -/
theorem c3_renovar_always_typeerror (st : Acervo) (eid : Nat) (d : Timedelta) :
    renovar st eid d = (st, some PyErr.typeError) :=
  rfl

/-- C8: checkout of an item whose title is not a key of `estoque` raises
(`ValueError`, the code's spelling of the spec's Unavailable) and performs
no state change at all: no loan is created, the borrower, the stock dict
and the open-loan list are untouched. -/
theorem c8_emprestar_unavailable (st : Acervo) (oid uid : Nat) (dias : Int)
    (h : dictMem st.estoque (st.obras oid).titulo = false) :
    emprestar st oid uid dias = (st, Except.error PyErr.valueError) := by
  simp [emprestar, disponivel, h]

/-- Witness for C8 at the fresh empty collection. -/
theorem c8_witness :
    dictMem w0.estoque (w0.obras 0).titulo = false ∧
    emprestar w0 0 0 7 = (w0, Except.error PyErr.valueError) :=
  ⟨by decide, c8_emprestar_unavailable w0 0 0 7 (by decide)⟩

/-- C4 counterexample: returning the already-closed loan 0 of `w3` raises
`ValueError` (not a state-preserving NotOpen): the stock entry for "Book"
has moved from 0 to 1 by the time the error is raised. -/
theorem c4_counterexample :
    (devolver w3 0 0).2 = some PyErr.valueError ∧
    w3.estoque = [("Book", 0)] ∧
    (devolver w3 0 0).1.estoque = [("Book", 1)] :=
  ⟨rfl, rfl, rfl⟩

/-- C4 as amended: `devolver` on a loan absent from `emprestimos_ativos`
raises `ValueError` from the final `list.remove`, but only after the fine
check, a further stock increment and a fresh `marcar_devolucao` have
already mutated the state; those mutations persist past the error. -/
theorem c4_rereturn_mutates_then_raises (st : Acervo) (eid : Nat) (d : Int)
    (h : eid ∉ st.emprestimosAtivos) :
    devolver st eid d =
      (marcarDevolucao
        (adicionar (multarSeAtrasado st eid)
          ((multarSeAtrasado st eid).emprestimos eid).obraId) eid d,
       some PyErr.valueError) := by
  have hal : (marcarDevolucao
      (adicionar (multarSeAtrasado st eid)
        ((multarSeAtrasado st eid).emprestimos eid).obraId) eid d).emprestimosAtivos
      = st.emprestimosAtivos := by
    rw [marcarDevolucao_emprestimosAtivos, adicionar_emprestimosAtivos,
      multarSeAtrasado_emprestimosAtivos]
  simp only [devolver]
  rw [hal, (listRemove_eq_none_iff _ _).mpr h]

/-- Witness for C4: the second `devolver` on the returned state `w3`. -/
theorem c4_witness :
    (0 ∉ w3.emprestimosAtivos) ∧
    devolver w3 0 0 =
      (marcarDevolucao
        (adicionar (multarSeAtrasado w3 0)
          ((multarSeAtrasado w3 0).emprestimos 0).obraId) 0 0,
       some PyErr.valueError) :=
  ⟨by decide, c4_rereturn_mutates_then_raises w3 0 0 (by decide)⟩

/-- C5 counterexample: a return whose item title had left the stock dict
does not increment the entry by one.  In `w2` the title is absent (the
claim's increment would make the entry 1); the successful return leaves the
entry at 0, because `__iadd__` re-creates it at the item's un-incremented
`quantidade`. -/
theorem c5_counterexample :
    dictLookup w2.estoque "Book" = none ∧
    (devolver w2 0 0).2 = none ∧
    dictLookup (devolver w2 0 0).1.estoque "Book" = some 0 :=
  ⟨rfl, rfl, rfl⟩

/-- C5 as amended: on an open loan (present in `emprestimos_ativos`, here
with no duplicates), `devolver` succeeds and performs, in order: the fine
check relative to the frozen today, one `adicionar` of the loan's item
(which increments the present entry by one but re-creates an absent entry
at the item's current `quantidade`), `marcar_devolucao` with the supplied
date, and removal from `emprestimos_ativos`.  Afterwards the loan is
closed with the supplied date and absent from the open list; the stock and
the borrowers are exactly those produced by the fine check followed by the
single `adicionar`. -/
theorem c5_devolver_effects (st : Acervo) (eid : Nat) (d : Int)
    (h1 : eid ∈ st.emprestimosAtivos) (h2 : st.emprestimosAtivos.Nodup) :
    (devolver st eid d).2 = none ∧
    ((devolver st eid d).1.emprestimos eid).dataDevReal = some d ∧
    eid ∉ (devolver st eid d).1.emprestimosAtivos ∧
    (devolver st eid d).1.estoque =
      (adicionar (multarSeAtrasado st eid)
        ((multarSeAtrasado st eid).emprestimos eid).obraId).estoque ∧
    (devolver st eid d).1.usuarios = (multarSeAtrasado st eid).usuarios := by
  obtain ⟨l, hl⟩ := listRemove_exists_of_mem st.emprestimosAtivos eid h1
  have hal : (marcarDevolucao
      (adicionar (multarSeAtrasado st eid)
        ((multarSeAtrasado st eid).emprestimos eid).obraId) eid d).emprestimosAtivos
      = st.emprestimosAtivos := by
    rw [marcarDevolucao_emprestimosAtivos, adicionar_emprestimosAtivos,
      multarSeAtrasado_emprestimosAtivos]
  have hd : devolver st eid d =
      ({ marcarDevolucao
           (adicionar (multarSeAtrasado st eid)
             ((multarSeAtrasado st eid).emprestimos eid).obraId) eid d
         with emprestimosAtivos := l }, none) := by
    simp only [devolver]
    rw [hal, hl]
  rw [hd]
  refine ⟨rfl, ?_, ?_, ?_, ?_⟩
  · show ((marcarDevolucao
        (adicionar (multarSeAtrasado st eid)
          ((multarSeAtrasado st eid).emprestimos eid).obraId) eid d).emprestimos eid).dataDevReal
      = some d
    simp only [marcarDevolucao]
    rw [heapSet_self]
  · exact not_mem_listRemove st.emprestimosAtivos eid l h2 hl
  · show (marcarDevolucao
        (adicionar (multarSeAtrasado st eid)
          ((multarSeAtrasado st eid).emprestimos eid).obraId) eid d).estoque = _
    rw [marcarDevolucao_estoque]
  · show (marcarDevolucao
        (adicionar (multarSeAtrasado st eid)
          ((multarSeAtrasado st eid).emprestimos eid).obraId) eid d).usuarios = _
    rw [marcarDevolucao_usuarios, adicionar_usuarios]

/-- Witness for C5: the return of the open loan of `w2` on day 0. -/
theorem c5_witness :
    0 ∈ w2.emprestimosAtivos ∧ w2.emprestimosAtivos.Nodup ∧
    ((devolver w2 0 0).2 = none ∧
     ((devolver w2 0 0).1.emprestimos 0).dataDevReal = some 0 ∧
     0 ∉ (devolver w2 0 0).1.emprestimosAtivos ∧
     (devolver w2 0 0).1.estoque =
       (adicionar (multarSeAtrasado w2 0)
         ((multarSeAtrasado w2 0).emprestimos 0).obraId).estoque ∧
     (devolver w2 0 0).1.usuarios = (multarSeAtrasado w2 0).usuarios) :=
  ⟨by decide, by decide, c5_devolver_effects w2 0 0 (by decide) (by decide)⟩

/-- C6 counterexample: `adicionar` of an item whose title is absent does
not create the stock entry at 1 — it creates it at the item's current
`quantidade` (here 3). -/
theorem c6_counterexample :
    dictMem wTres.estoque "T" = false ∧
    dictLookup (adicionar wTres 0).estoque "T" = some 3 ∧
    (3 : Int) ≠ 1 :=
  ⟨rfl, rfl, by decide⟩

/-- C6 as amended: `adicionar(item)` never signals an error and touches no
other stock key; the entry for the item's title becomes `quantidade + 1`
(one more than the item's counter, which it also increments) when the
title is present, and the item's current `quantidade` — not 1 — when the
title is absent. -/
theorem c6_adicionar_entry (st : Acervo) (oid : Nat) :
    dictLookup (adicionar st oid).estoque (st.obras oid).titulo =
      some (if dictMem st.estoque (st.obras oid).titulo
            then (st.obras oid).quantidade + 1
            else (st.obras oid).quantidade) ∧
    (∀ t, t ≠ (st.obras oid).titulo →
      dictLookup (adicionar st oid).estoque t = dictLookup st.estoque t) := by
  constructor
  · by_cases h : dictMem st.estoque (st.obras oid).titulo
    · simp [adicionar, iadd, h, dictLookup_dictSet_self]
    · simp only [Bool.not_eq_true] at h
      simp [adicionar, iadd, h, dictLookup_dictSet_self]
  · intro t ht
    by_cases h : dictMem st.estoque (st.obras oid).titulo
    · simp only [adicionar, iadd, if_pos h]
      exact dictLookup_dictSet_ne st.estoque (st.obras oid).titulo t _ ht
    · simp only [adicionar, iadd, if_neg h]
      exact dictLookup_dictSet_ne st.estoque (st.obras oid).titulo t _ ht

/-- Witness for C6: adding the absent three-copy title leaves other keys
untouched, and its own entry is the one the theorem computes. -/
theorem c6_witness :
    dictLookup (adicionar wTres 0).estoque (wTres.obras 0).titulo =
      some (if dictMem wTres.estoque (wTres.obras 0).titulo
            then (wTres.obras 0).quantidade + 1
            else (wTres.obras 0).quantidade) ∧
    ("X" : String) ≠ (wTres.obras 0).titulo ∧
    dictLookup (adicionar wTres 0).estoque "X" = dictLookup wTres.estoque "X" :=
  ⟨(c6_adicionar_entry wTres 0).1, by decide,
    (c6_adicionar_entry wTres 0).2 "X" (by decide)⟩

/-- C7 counterexample: `remover` of a title absent from the stock dict is
not always a no-op — when the item object's `quantidade` is ≤ 0 the
unconditional `estoque.pop(obra.titulo)` raises `KeyError`. -/
theorem c7_counterexample :
    dictMem wAbs.estoque "Book" = false ∧
    (remover wAbs 0).2 = some PyErr.keyError :=
  ⟨rfl, rfl⟩

/-- C7 as amended: when the title is present, `remover` decrements the
item's counter, writes it to the entry, and deletes the title when the new
counter is ≤ 0 — no error.  When the title is absent, it is a no-op only
if the item's `quantidade` is positive; if the `quantidade` is ≤ 0, the
unguarded `pop` raises `KeyError` (state unchanged). -/
theorem c7_remover_cases (st : Acervo) (oid : Nat) :
    (dictMem st.estoque (st.obras oid).titulo = false →
      ((st.obras oid).quantidade ≤ 0 →
        remover st oid = (st, some PyErr.keyError)) ∧
      (0 < (st.obras oid).quantidade →
        remover st oid = (st, none))) ∧
    (dictMem st.estoque (st.obras oid).titulo = true →
      (st.estoque.map Prod.fst).Nodup →
      (remover st oid).2 = none ∧
      ((remover st oid).1.obras oid).quantidade = (st.obras oid).quantidade - 1 ∧
      dictLookup (remover st oid).1.estoque (st.obras oid).titulo =
        (if (st.obras oid).quantidade - 1 ≤ 0 then none
         else some ((st.obras oid).quantidade - 1))) := by
  constructor
  · intro h
    have hlook : dictLookup st.estoque (st.obras oid).titulo = none := by
      cases e : dictLookup st.estoque (st.obras oid).titulo with
      | none => rfl
      | some v => rw [dictMem, e] at h; simp at h
    have hpop : dictPop st.estoque (st.obras oid).titulo = none :=
      (dictPop_eq_none_iff _ _).mpr hlook
    constructor
    · intro hq
      simp [remover, isub, h, hq, hpop]
    · intro hq
      have hq' : ¬ (st.obras oid).quantidade ≤ 0 := not_le.mpr hq
      simp [remover, isub, h, hq']
  · intro h hnd
    by_cases hq : (st.obras oid).quantidade - 1 ≤ 0
    · have hlookset :
          dictLookup
            (dictSet st.estoque (st.obras oid).titulo ((st.obras oid).quantidade - 1))
            (st.obras oid).titulo = some ((st.obras oid).quantidade - 1) :=
        dictLookup_dictSet_self _ _ _
      have hne :
          dictPop
            (dictSet st.estoque (st.obras oid).titulo ((st.obras oid).quantidade - 1))
            (st.obras oid).titulo ≠ none := by
        intro hc
        rw [dictPop_eq_none_iff, hlookset] at hc
        exact Option.noConfusion hc
      obtain ⟨d', hd'⟩ := Option.ne_none_iff_exists'.mp hne
      have hnone : dictLookup d' (st.obras oid).titulo = none :=
        dictLookup_dictPop_self _ _ _ (nodup_map_fst_dictSet _ _ _ hnd) hd'
      refine ⟨?_, ?_, ?_⟩ <;>
        simp [remover, isub, h, hq, hd', heapSet_self, hnone]
    · have hlookset :=
        dictLookup_dictSet_self st.estoque (st.obras oid).titulo
          ((st.obras oid).quantidade - 1)
      refine ⟨?_, ?_, ?_⟩ <;>
        simp [remover, isub, h, hq, heapSet_self, hlookset]

/-- Witness for C7: the absent-title `KeyError` on `wAbs`, and the regular
present-title decrement on `w1`. -/
theorem c7_witness :
    (dictMem wAbs.estoque (wAbs.obras 0).titulo = false ∧
     (wAbs.obras 0).quantidade ≤ 0 ∧
     remover wAbs 0 = (wAbs, some PyErr.keyError)) ∧
    (dictMem w1.estoque (w1.obras 0).titulo = true ∧
     (w1.estoque.map Prod.fst).Nodup ∧
     (remover w1 0).2 = none) :=
  ⟨⟨by decide, by decide, ((c7_remover_cases wAbs 0).1 (by decide)).1 (by decide)⟩,
   ⟨by decide, by decide, ((c7_remover_cases w1 0).2 (by decide) (by decide)).1⟩⟩

/-- C9 counterexample: flagging the same loan late twice (same day) does
not add a second debt entry — the debts dict is keyed by the reason string,
so the second assessment overwrites the first and one entry remains.  The
recorded value is the currency string `R$ 3,0`, not a bare number. -/
theorem c9_counterexample :
    ((multarSeAtrasado wLate 0).usuarios 0).debitos =
      [(multaKey obraLivro 10, multaVal 3)] ∧
    ((multarSeAtrasado (multarSeAtrasado wLate 0) 0).usuarios 0).debitos =
      [(multaKey obraLivro 10, multaVal 3)] ∧
    ((multarSeAtrasado (multarSeAtrasado wLate 0) 0).usuarios 0).debitos.length = 1 :=
  ⟨rfl, rfl, rfl⟩

/-- C9 as amended: when `dias_atraso()` is nonzero, fine assessment writes
into the loan's own borrower's debts, under the key naming the item and
the day of assessment, the value `R$ n,0` — the string rendering of the
numeric lateness (1 unit per day, no cap).  Writing is dict assignment on
the reason key, so re-flagging the same loan on the same day overwrites
the same entry instead of adding one: assessment is idempotent. -/
theorem c9_multar_overwrites (st : Acervo) (eid : Nat)
    (h : diasAtraso (st.emprestimos eid) st.today ≠ 0) :
    ((multarSeAtrasado st eid).usuarios (st.emprestimos eid).usuarioId).debitos =
      dictSet ((st.usuarios (st.emprestimos eid).usuarioId).debitos)
        (multaKey (st.obras (st.emprestimos eid).obraId) st.today)
        (multaVal (diasAtraso (st.emprestimos eid) st.today)) ∧
    multarSeAtrasado (multarSeAtrasado st eid) eid = multarSeAtrasado st eid := by
  constructor
  · simp [multarSeAtrasado, h, heapSet_self]
  · simp [multarSeAtrasado, h, heapSet_self, heapSet_heapSet, dictSet_idem]

/-- Witness for C9: the three-day-late loan of `wLate`. -/
theorem c9_witness :
    diasAtraso (wLate.emprestimos 0) wLate.today ≠ 0 ∧
    (((multarSeAtrasado wLate 0).usuarios (wLate.emprestimos 0).usuarioId).debitos =
       dictSet ((wLate.usuarios (wLate.emprestimos 0).usuarioId).debitos)
         (multaKey (wLate.obras (wLate.emprestimos 0).obraId) wLate.today)
         (multaVal (diasAtraso (wLate.emprestimos 0) wLate.today)) ∧
     multarSeAtrasado (multarSeAtrasado wLate 0) 0 = multarSeAtrasado wLate 0) :=
  ⟨by decide, c9_multar_overwrites wLate 0 (by decide)⟩

/-- C10: stock bookkeeping aliases the item object.  Both `__iadd__` and
`__isub__` write the (possibly mutated) `quantidade` of the very item they
were handed into the stock entry, so after either operation, whenever the
item's title is a key of `estoque` (with duplicate-free keys, as any
Python dict has), the entry equals that item object's current `quantidade`
field. -/
theorem c10_stock_aliases_obra (st : Acervo) (oid : Nat)
    (hnd : (st.estoque.map Prod.fst).Nodup) :
    (∀ q, dictLookup (adicionar st oid).estoque
        ((adicionar st oid).obras oid).titulo = some q →
        q = ((adicionar st oid).obras oid).quantidade) ∧
    (∀ q, dictLookup (remover st oid).1.estoque
        ((remover st oid).1.obras oid).titulo = some q →
        q = ((remover st oid).1.obras oid).quantidade) := by
  constructor
  · intro q hq
    by_cases h : dictMem st.estoque (st.obras oid).titulo
    · simp [adicionar, iadd, h, heapSet_self, dictLookup_dictSet_self] at hq ⊢
      omega
    · simp only [Bool.not_eq_true] at h
      simp [adicionar, iadd, h, dictLookup_dictSet_self] at hq ⊢
      omega
  · intro q hq
    by_cases h : dictMem st.estoque (st.obras oid).titulo
    · by_cases hq0 : (st.obras oid).quantidade - 1 ≤ 0
      · have hlookset :=
          dictLookup_dictSet_self st.estoque (st.obras oid).titulo
            ((st.obras oid).quantidade - 1)
        have hne :
            dictPop
              (dictSet st.estoque (st.obras oid).titulo ((st.obras oid).quantidade - 1))
              (st.obras oid).titulo ≠ none := by
          intro hc
          rw [dictPop_eq_none_iff, hlookset] at hc
          exact Option.noConfusion hc
        obtain ⟨d', hd'⟩ := Option.ne_none_iff_exists'.mp hne
        have hnone : dictLookup d' (st.obras oid).titulo = none :=
          dictLookup_dictPop_self _ _ _ (nodup_map_fst_dictSet _ _ _ hnd) hd'
        simp [remover, isub, h, hq0, hd', heapSet_self, hnone] at hq
      · simp [remover, isub, h, hq0, heapSet_self, dictLookup_dictSet_self] at hq ⊢
        omega
    · have hlook : dictLookup st.estoque (st.obras oid).titulo = none := by
        cases e : dictLookup st.estoque (st.obras oid).titulo with
        | none => rfl
        | some v => rw [dictMem, e] at h; simp at h
      simp only [Bool.not_eq_true] at h
      by_cases hq0 : (st.obras oid).quantidade ≤ 0
      · have hpop := (dictPop_eq_none_iff st.estoque (st.obras oid).titulo).mpr hlook
        simp [remover, isub, h, hq0, hpop, hlook] at hq
      · simp [remover, isub, h, hq0, hlook] at hq

/-- Witness for C10: adding the present single copy of `w1` (entry and
item counter both end at 2) and removing one of the two copies of `wDois`
(entry and item counter both end at 1). -/
theorem c10_witness :
    (w1.estoque.map Prod.fst).Nodup ∧
    dictLookup (adicionar w1 0).estoque ((adicionar w1 0).obras 0).titulo = some 2 ∧
    ((2 : Int) = ((adicionar w1 0).obras 0).quantidade) ∧
    (wDois.estoque.map Prod.fst).Nodup ∧
    dictLookup (remover wDois 0).1.estoque ((remover wDois 0).1.obras 0).titulo = some 1 ∧
    ((1 : Int) = ((remover wDois 0).1.obras 0).quantidade) :=
  ⟨by decide, by decide, (c10_stock_aliases_obra w1 0 (by decide)).1 2 (by decide),
   by decide, by decide, (c10_stock_aliases_obra wDois 0 (by decide)).2 1 (by decide)⟩
